import Mathlib

/-!
Verification of the Report Parsing & Metrics Engine of the multi-store
report calculator (`streamlit_app.py`).  The Python source is shallowly
embedded: currency amounts become `ℚ`, optional values become `Option`,
pandas NaN-absence becomes `Option.none`, and the regex-based line
parsers become executable functions over `List Char` / `List String`.
-/

namespace FRS

/-! ## Calendar model (Python `datetime.date` / `calendar`) -/

/-- A calendar date, mirroring Python's `datetime.date` fields. -/
structure Date where
  year : Nat
  month : Nat
  day : Nat
deriving DecidableEq, Repr

/-- Gregorian leap-year rule, as used by `calendar.monthrange`. -/
def isLeap (y : Nat) : Bool :=
  (y % 4 == 0 && y % 100 != 0) || (y % 400 == 0)

/-- Source `month_days(year, month) = calendar.monthrange(year, month)[1]`:
the number of days in the given month. -/
def month_days (y m : Nat) : Nat :=
  match m with
  | 1 => 31
  | 2 => if isLeap y then 29 else 28
  | 3 => 31
  | 4 => 30
  | 5 => 31
  | 6 => 30
  | 7 => 31
  | 8 => 31
  | 9 => 30
  | 10 => 31
  | 11 => 30
  | 12 => 31
  | _ => 0

/-- Days in all years strictly before year `y` (proleptic Gregorian),
as in `datetime.date.toordinal`. -/
def daysBeforeYear (y : Nat) : Nat :=
  365 * (y - 1) + (y - 1) / 4 - (y - 1) / 100 + (y - 1) / 400

/-- Days in the months of year `y` strictly before month `m`. -/
def daysBeforeMonth (y m : Nat) : Nat :=
  ((List.range (m - 1)).map (fun k => month_days y (k + 1))).sum

/-- Ordinal `Date.toordinal`: day number with `⟨1,1,1⟩ ↦ 1` (a Monday). -/
def toOrdinal (d : Date) : Nat :=
  daysBeforeYear d.year + daysBeforeMonth d.year d.month + d.day

/-- Python `date.weekday()`: Monday = 0 … Sunday = 6.
`(toOrdinal d + 6) % 7` equals `(toOrdinal d - 1) % 7`. -/
def weekday (d : Date) : Nat :=
  (toOrdinal d + 6) % 7

/-- Predicate `is_sunday(d)`: `d.weekday() == 6`. -/
def is_sunday (d : Date) : Bool :=
  weekday d == 6

/-- Counter `count_sundays_in_month(year, month)`: loop over days `1..dim`. -/
def count_sundays_in_month (y m : Nat) : Nat :=
  (List.range (month_days y m)).countP (fun i => is_sunday ⟨y, m, i + 1⟩)

/-- Successor date, the effect of `cur += timedelta(days=1)` on a valid date. -/
def nextDate (d : Date) : Date :=
  if d.day < month_days d.year d.month then ⟨d.year, d.month, d.day + 1⟩
  else if d.month < 12 then ⟨d.year, d.month + 1, 1⟩
  else ⟨d.year + 1, 1, 1⟩

/-- The list of `n` consecutive dates starting at `d`. -/
def datesFrom (d : Date) : Nat → List Date
  | 0 => []
  | n + 1 => d :: datesFrom (nextDate d) n

/-- Generator `daterange_inclusive(d1, d2)`: all days of `[d1, d2]`, in order.
The `while cur <= d2` loop runs `toOrdinal d2 + 1 - toOrdinal d1` times. -/
def daterange_inclusive (d1 d2 : Date) : List Date :=
  datesFrom d1 (toOrdinal d2 + 1 - toOrdinal d1)

/-- One day's contribution inside the loop of `prorated_goal_exact_calendar`:
7-day stores get `goal / dim`; 6-day stores get `goal / workdays` except on
Sundays (0), and the whole day is skipped when `workdays ≤ 0`. -/
def dailyContribution (monthly_goal : ℚ) (six_day_store : Bool) (d : Date) : ℚ :=
  let dim := month_days d.year d.month
  if six_day_store then
    let workdays := dim - count_sundays_in_month d.year d.month
    if workdays = 0 then 0
    else if is_sunday d then 0
    else monthly_goal / workdays
  else monthly_goal / dim

/-- Body of `prorated_goal_exact_calendar` once all three inputs are present. -/
def prorateSum (monthly_goal : ℚ) (start e : Date) (six_day_store : Bool) : ℚ :=
  (daterange_inclusive start e).foldl
    (fun total d => total + dailyContribution monthly_goal six_day_store d) 0

/-- Function `prorated_goal_exact_calendar(monthly_goal, start, end, six_day_store)`:
`None` when any input is `None`, otherwise the day-by-day sum. -/
def prorated_goal_exact_calendar (monthly_goal : Option ℚ) (start e : Option Date)
    (six_day_store : Bool) : Option ℚ :=
  match monthly_goal, start, e with
  | some g, some s, some en => some (prorateSum g s en six_day_store)
  | _, _, _ => none

/-! ## Text primitives (regex character classes, numeric conversion) -/

/-- Class `\s` inside a single line (lines carry no newline): space or tab. -/
def isSpaceCh (c : Char) : Bool :=
  c == ' ' || c == '\t'

/-- Strip leading and trailing whitespace from a character list. -/
def trimChars (cs : List Char) : List Char :=
  ((cs.dropWhile isSpaceCh).reverse.dropWhile isSpaceCh).reverse

/-- Python `str.strip()` (and the `.strip()` calls of the source). -/
def strTrim (s : String) : String :=
  String.mk (trimChars s.toList)

/-- Does the first list occur as a prefix of the second? -/
def listStartsWith : List Char → List Char → Bool
  | [], _ => true
  | _ :: _, [] => false
  | a :: as, b :: bs => a = b && listStartsWith as bs

/-- Class `\d`: an ASCII decimal digit. -/
def isDigitCh (c : Char) : Bool :=
  '0' ≤ c && c ≤ '9'

/-- Class `[\d,]`: a digit or a thousands separator. -/
def isMoneyCh (c : Char) : Bool :=
  isDigitCh c || c == ','

/-- Decimal value of a digit run, as `int(...)`. -/
def natOfDigits (cs : List Char) : Nat :=
  cs.foldl (fun n c => 10 * n + (c.toNat - 48)) 0

/-- Value of a decimal literal `digits[.digits]` as an exact rational,
the idealisation of Python `float(...)` on the constrained inputs. -/
def floatOfChars (cs : List Char) : ℚ :=
  let intPart := cs.takeWhile (fun c => c ≠ '.')
  match cs.dropWhile (fun c => c ≠ '.') with
  | [] => natOfDigits intPart
  | _ :: fracPart =>
      (natOfDigits intPart : ℚ) + (natOfDigits fracPart : ℚ) / 10 ^ fracPart.length

/-- Function `money_to_float(s)`: drop every `,` and `$`, strip surrounding
whitespace, convert the decimal literal. -/
def money_to_float (s : String) : ℚ :=
  let cs := s.toList.filter (fun c => c ≠ ',' && c ≠ '$')
  floatOfChars ((cs.dropWhile isSpaceCh).reverse.dropWhile isSpaceCh).reverse

/-! ## The row / totals line pattern

`row_re = ^[\+\-]\s*(.+?)\s+(\d+)\s+(\d+)\s+\$([\d,]+\.\d{2})\s+\$([\d,]+\.\d{2})\s+\$([\d,]+\.\d{2})\s*$`
matched per line (`re.MULTILINE`).  The sub-pattern after the category
capture is deterministic (each boundary separates disjoint character
classes), so it is matched by a straight-line function; the lazy
category capture and the greedy `\s*` after the sign are realised by
trying the candidate splits in the regex engine's backtracking order. -/

/-- Five captured fields of a category/totals line: customer count,
item count and the three raw currency captures (without the `$`). -/
structure LineFields where
  customer_count : Nat
  item_count : Nat
  income_str : String
  customer_avg_str : String
  item_avg_str : String
deriving DecidableEq, Repr

/-- Match `\$([\d,]+\.\d{2})`, returning the capture and the rest. -/
def matchMoney (cs : List Char) : Option (String × List Char) :=
  match cs with
  | c :: rest =>
      if c = '$' then
        let run := rest.takeWhile isMoneyCh
        if run.isEmpty then none
        else
          match rest.dropWhile isMoneyCh with
          | d :: c1 :: c2 :: rest2 =>
              if d = '.' && isDigitCh c1 && isDigitCh c2 then
                some (String.mk (run ++ ['.', c1, c2]), rest2)
              else none
          | _ => none
      else none
  | [] => none

/-- Match `(\d+)`, at least one digit, returning value and rest. -/
def matchInt (cs : List Char) : Option (Nat × List Char) :=
  let run := cs.takeWhile isDigitCh
  if run.isEmpty then none else some (natOfDigits run, cs.dropWhile isDigitCh)

/-- Match `\s+`, at least one whitespace character, returning the rest. -/
def matchWs (cs : List Char) : Option (List Char) :=
  if (cs.takeWhile isSpaceCh).isEmpty then none else some (cs.dropWhile isSpaceCh)

/-- Deterministic tail `\s+(\d+)\s+(\d+)\s+\$(m)\s+\$(m)\s+\$(m)\s*$`
shared by the category-row and totals patterns. -/
def matchTail (cs : List Char) : Option LineFields :=
  (matchWs cs).bind fun r1 =>
  (matchInt r1).bind fun p1 =>
  (matchWs p1.2).bind fun r2 =>
  (matchInt r2).bind fun p2 =>
  (matchWs p2.2).bind fun r3 =>
  (matchMoney r3).bind fun q1 =>
  (matchWs q1.2).bind fun r4 =>
  (matchMoney r4).bind fun q2 =>
  (matchWs q2.2).bind fun r5 =>
  (matchMoney r5).bind fun q3 =>
  if (q3.2.dropWhile isSpaceCh).isEmpty then
    some ⟨p1.1, p2.1, q1.1, q2.1, q3.1⟩
  else none

/-- One backtracking candidate of `row_re` after the sign: drop `w`
whitespace characters for `\s*`, take `k + 1` characters as the lazy
category capture `(.+?)`, and run the deterministic tail. -/
def rowCandidate (rest : List Char) (w k : Nat) : Option (String × LineFields) :=
  let afterWs := rest.drop w
  (matchTail (afterWs.drop (k + 1))).map fun f => (String.mk (afterWs.take (k + 1)), f)

/-- Match `row_re` against one line: sign, then the candidates in the
engine's order (longest `\s*` first, shortest category first). -/
def row_match (cs : List Char) : Option (String × LineFields) :=
  match cs with
  | c :: rest =>
      if c = '+' || c = '-' then
        ((List.range ((rest.takeWhile isSpaceCh).length + 1)).reverse).findSome? fun w =>
          (List.range (rest.length - w)).findSome? fun k =>
            rowCandidate rest w k
      else none
  | [] => none

/-- Match the totals pattern
`^Totals\s+(\d+)\s+(\d+)\s+\$(m)\s+\$(m)\s+\$(m)\s*$` (case-insensitive)
against one line. -/
def totals_match (cs : List Char) : Option LineFields :=
  match cs with
  | t :: o :: ta :: a :: l :: s :: rest =>
      if t.toLower = 't' && o.toLower = 'o' && ta.toLower = 't' &&
         a.toLower = 'a' && l.toLower = 'l' && s.toLower = 's' then
        matchTail rest
      else none
  | _ => none

/-- A parsed category row (`rows[cat]` dict value): currency captures
converted by `money_to_float`. -/
structure CategoryRow where
  customer_count : Nat
  item_count : Nat
  income : ℚ
  customer_avg : ℚ
  item_avg : ℚ
deriving DecidableEq, Repr

/-- Build a `CategoryRow` from captured line fields, as the loop body of
`parse_worker_sales_by_category` does. -/
def rowOfFields (f : LineFields) : CategoryRow :=
  ⟨f.customer_count, f.item_count, money_to_float f.income_str,
    money_to_float f.customer_avg_str, money_to_float f.item_avg_str⟩

/-- All `row_re` matches of the text, in line order (`findall`),
with the category capture stripped. -/
def rowMatches (lines : List String) : List (String × CategoryRow) :=
  lines.filterMap fun line =>
    (row_match line.toList).map fun p => (strTrim p.1, rowOfFields p.2)

/-- Fold the match list into the `rows` dict: `rows[cat] = {...}`,
later assignments overwriting earlier ones. -/
def rows_of (ms : List (String × CategoryRow)) : String → Option CategoryRow :=
  ms.foldl (fun f kv => fun k => if k = kv.1 then some kv.2 else f k) (fun _ => none)

/-! ## Center / date-range extraction -/

/-- Is the line whitespace-only (what `\s*` may span between lines)? -/
def isBlankLine (s : String) : Bool :=
  (s.toList.dropWhile isSpaceCh).isEmpty

/-- A line whose text, from some position on, is the case-insensitive
marker followed only by whitespace — one `marker \s*\n` occurrence. -/
def lineEndsWithMarker (marker : String) (s : String) : Bool :=
  listStartsWith marker.toList.reverse ((s.toList.map Char.toLower).reverse.dropWhile isSpaceCh)

/-- Search `re.search(r"Center:\s*\n(\d+)", text, IGNORECASE)` at line level:
at the first `Center:` marker line whose following non-blank line starts
with a digit, capture that line's leading digit run; on failure the
search continues with later marker lines. -/
def find_center : List String → Option String
  | [] => none
  | line :: rest =>
      if lineEndsWithMarker "center:" line then
        match (rest.dropWhile isBlankLine) with
        | next :: _ =>
            let run := next.toList.takeWhile isDigitCh
            if run.isEmpty then find_center rest else some (String.mk run)
        | [] => find_center rest
      else find_center rest

/-- Class `[0-9/]`: a character of a date token. -/
def isDateTokCh (c : Char) : Bool :=
  isDigitCh c || c == '/'

/-- A line starting with a nonempty `[0-9/]+` run and otherwise blank
(the `([0-9/]+)\s*\n` piece); returns the capture. -/
def dateTokenLine (s : String) : Option String :=
  let run := s.toList.takeWhile isDateTokCh
  if run.isEmpty then none
  else if (s.toList.dropWhile isDateTokCh).dropWhile isSpaceCh |>.isEmpty then
    some (String.mk run)
  else none

/-- A `to\s*\n` line: starts with `to` (case-insensitive), rest blank. -/
def isToLine (s : String) : Bool :=
  match s.toList with
  | a :: b :: rest => a.toLower = 't' && b.toLower = 'o' && (rest.dropWhile isSpaceCh).isEmpty
  | _ => false

/-- The final `([0-9/]+)` capture has no trailing anchor: any line
starting with a nonempty `[0-9/]+` run qualifies. -/
def dateTokenPrefix (s : String) : Option String :=
  let run := s.toList.takeWhile isDateTokCh
  if run.isEmpty then none else some (String.mk run)

/-- Search `re.search(r"Date Range:\s*\n([0-9/]+)\s*\nto\s*\n([0-9/]+)", text,
IGNORECASE)` at line level: marker line, then (skipping blank lines)
a date-token line, a `to` line, and a line starting with a date token;
on failure the search continues with later marker lines. -/
def find_date_tokens : List String → Option (String × String)
  | [] => none
  | line :: rest =>
      (if lineEndsWithMarker "date range:" line then
        match (rest.dropWhile isBlankLine) with
        | l1 :: rest1 =>
            (dateTokenLine l1).bind fun tok1 =>
            match (rest1.dropWhile isBlankLine) with
            | l2 :: rest2 =>
                if isToLine l2 then
                  match (rest2.dropWhile isBlankLine) with
                  | l3 :: _ => (dateTokenPrefix l3).map fun tok2 => (tok1, tok2)
                  | [] => none
                else none
            | [] => none
        | [] => none
      else none).orElse fun _ => find_date_tokens rest

/-! ## Date parsing (`parse_date_any`, modelling `datetime.strptime`) -/

/-- Split a date token at the `/` separators. -/
def splitSlashes (cs : List Char) : List (List Char) :=
  cs.splitOn '/'

/-- Is `⟨y, m, d⟩` constructible as a `datetime.date`? -/
def validDate (y m d : Nat) : Bool :=
  1 ≤ y && y ≤ 9999 && 1 ≤ m && m ≤ 12 && 1 ≤ d && d ≤ month_days y m

/-- Format `strptime(s, "%m/%d/%Y").date()`: one- or two-digit month and day
(the value ranges `1..12` / `1..31` are enforced by strptime's regex),
exactly four year digits, then `date` construction validates the day. -/
def strptime_mdY4 (cs : List Char) : Option Date :=
  match splitSlashes cs with
  | [mp, dp, yp] =>
      if mp.all isDigitCh && dp.all isDigitCh && yp.all isDigitCh &&
         1 ≤ mp.length && mp.length ≤ 2 && 1 ≤ dp.length && dp.length ≤ 2 &&
         yp.length = 4 then
        let m := natOfDigits mp
        let d := natOfDigits dp
        let y := natOfDigits yp
        if 1 ≤ m && m ≤ 12 && 1 ≤ d && d ≤ 31 && validDate y m d then
          some ⟨y, m, d⟩
        else none
      else none
  | _ => none

/-- Format `strptime(s, "%m/%d/%y").date()`: exactly two year digits, mapped
to 2000–2068 / 1969–1999 by the POSIX pivot. -/
def strptime_mdy2 (cs : List Char) : Option Date :=
  match splitSlashes cs with
  | [mp, dp, yp] =>
      if mp.all isDigitCh && dp.all isDigitCh && yp.all isDigitCh &&
         1 ≤ mp.length && mp.length ≤ 2 && 1 ≤ dp.length && dp.length ≤ 2 &&
         yp.length = 2 then
        let m := natOfDigits mp
        let d := natOfDigits dp
        let y2 := natOfDigits yp
        let y := if y2 ≤ 68 then 2000 + y2 else 1900 + y2
        if 1 ≤ m && m ≤ 12 && 1 ≤ d && d ≤ 31 && validDate y m d then
          some ⟨y, m, d⟩
        else none
      else none
  | _ => none

/-- Function `parse_date_any(s)`: strip, try `%m/%d/%Y` then `%m/%d/%y`. -/
def parse_date_any (s : String) : Option Date :=
  let cs := (strTrim s).toList
  (strptime_mdY4 cs).orElse fun _ => strptime_mdy2 cs

/-! ## `parse_worker_sales_by_category` -/

/-- The structured result: `meta` fields, the `rows` dict and the
optional `totals` dict of `parse_worker_sales_by_category`. -/
structure ParsedReport where
  center : Option String
  date_range_str : Option String
  start_date : Option Date
  end_date : Option Date
  rows : String → Option CategoryRow
  totals : Option CategoryRow

/-- Render a resolved date as `f"{d.month}/{d.day}/{d.year}"`. -/
def fmtDate (d : Date) : String :=
  toString d.month ++ "/" ++ toString d.day ++ "/" ++ toString d.year

/-- Parser `parse_worker_sales_by_category(text)` over the text's lines. -/
def parse_worker_sales_by_category (lines : List String) : ParsedReport :=
  let center := find_center lines
  let toks := find_date_tokens lines
  let start_date := toks.bind fun p => parse_date_any p.1
  let end_date := toks.bind fun p => parse_date_any p.2
  let date_range_str :=
    match start_date, end_date with
    | some s, some e => some (fmtDate s ++ " to " ++ fmtDate e)
    | _, _ => toks.map fun p => strTrim p.1 ++ " to " ++ strTrim p.2
  let totals := (lines.findSome? fun line => totals_match line.toList).map rowOfFields
  ⟨center, date_range_str, start_date, end_date, rows_of (rowMatches lines), totals⟩

/-! ## Metric Calculator (the per-report body of the processing loop) -/

/-- Accessor `get_income(rows, category_name, default=None)`. -/
def get_income (rows : String → Option CategoryRow) (category_name : String) : Option ℚ :=
  (rows category_name).map (fun r => r.income)

/-- Accessor `get_income(rows, category_name, default=0.0)`. -/
def get_income_zero (rows : String → Option CategoryRow) (category_name : String) : ℚ :=
  ((rows category_name).map (fun r => r.income)).getD 0

/-- Accessor `get_customer_count(rows, category_name, default=0)`. -/
def get_customer_count (rows : String → Option CategoryRow) (category_name : String) : Nat :=
  ((rows category_name).map (fun r => r.customer_count)).getD 0

/-- Lookup `CENTER_NAMES.get(center, "")`. -/
def CENTER_NAMES (c : String) : String :=
  if c = "1504" then "Yucaipa"
  else if c = "5027" then "Beaumont"
  else if c = "5052" then "Ontario"
  else if c = "5255" then "Summit"
  else if c = "5778" then "Citrus"
  else if c = "6176" then "Sierra"
  else if c = "6769" then "Loma Linda"
  else if c = "7261" then "Ayala"
  else ""

/-- Assignment `ups_packages = get_customer_count(rows, "Shipping Charges (UPS)", 0) or None`:
Python `or` turns a zero count into `None`. -/
def ups_packages_of (rows : String → Option CategoryRow) : Option Nat :=
  let n := get_customer_count rows "Shipping Charges (UPS)"
  if n = 0 then none else some n

/-- One row of the goal editor table: center id, monthly goal
(`none` models an empty/NaN cell) and the 6-day checkbox. -/
structure GoalEntry where
  center : String
  goal : Option ℚ
  six : Bool

/-- The `goal_lookup` dict built from the editor rows: an entry is
inserted only when its trimmed center is nonempty and its goal is
present (`if c and pd.notna(g)`); later rows overwrite earlier ones. -/
def goal_lookup (entries : List GoalEntry) : String → Option (ℚ × Bool) :=
  entries.foldl
    (fun f e =>
      match e.goal with
      | some g =>
          if strTrim e.center ≠ "" then
            fun k => if k = strTrim e.center then some (g, e.six) else f k
          else f
      | none => f)
    (fun _ => none)

/-- One output row of the processing loop (`rows_out.append({...})`),
including the hidden `_ups_packages` / `_is_6day` columns. -/
structure StoreMetrics where
  center_label : String
  store : String
  date_range_str : String
  workweek : String
  total_sales : Option ℚ
  psp : ℚ
  net_sales : Option ℚ
  avg_meter_pkg : Option ℚ
  ups_shipping : Option ℚ
  avg_ups_pkg : Option ℚ
  meter_sales : Option ℚ
  packaging_bucket : ℚ
  notary_plus_psp : ℚ
  mailbox_sales : Option ℚ
  printing_copies : ℚ
  shred_sales : ℚ
  monthly_goal : Option ℚ
  prorated_goal : Option ℚ
  variance : Option ℚ
  ups_packages_col : Nat
  is6 : Bool
deriving DecidableEq, Repr

/-- The per-report body of the processing loop: derive one store's
metrics from its parsed report and the goal lookup. -/
def computeMetrics (glookup : String → Option (ℚ × Bool)) (idx : Nat)
    (p : ParsedReport) : StoreMetrics :=
  let center := strTrim (p.center.getD "")
  let total_sales := p.totals.map (fun t => t.income)
  let ups_shipping := get_income p.rows "Shipping Charges (UPS)"
  let ups_packages := ups_packages_of p.rows
  let meter_sales := get_income p.rows "Meter Mail"
  let psp_income := get_income_zero p.rows "Public Service Payments"
  let net_sales := total_sales.map (fun t => t - psp_income)
  let avg_ups_pkg :=
    match ups_shipping, ups_packages with
    | some s, some n => if n = 0 then none else some (s / n)
    | _, _ => none
  let avg_meter_pkg :=
    match meter_sales, ups_packages with
    | some s, some n => if n = 0 then none else some (s / n)
    | _, _ => none
  let lookupRes := if center = "" then none else glookup center
  let monthly_goal := lookupRes.map (fun r => r.1)
  let is_6day := (lookupRes.map (fun r => r.2)).getD false
  let prorated_goal :=
    prorated_goal_exact_calendar monthly_goal p.start_date p.end_date is_6day
  let variance :=
    match net_sales, prorated_goal with
    | some n, some g => some (n - g)
    | _, _ => none
  { center_label := if center = "" then "(Report #" ++ toString idx ++ ")" else center
    store := CENTER_NAMES center
    date_range_str := p.date_range_str.getD ""
    workweek := if is_6day then "6-day" else "7-day"
    total_sales := total_sales
    psp := psp_income
    net_sales := net_sales
    avg_meter_pkg := avg_meter_pkg
    ups_shipping := ups_shipping
    avg_ups_pkg := avg_ups_pkg
    meter_sales := meter_sales
    packaging_bucket :=
      get_income_zero p.rows "Office Supplies" + get_income_zero p.rows "Packaging Materials"
        + get_income_zero p.rows "Packaging Service Fee"
        + get_income_zero p.rows "Retail Shipping Supplies"
    notary_plus_psp := get_income_zero p.rows "Notary" + psp_income
    mailbox_sales := get_income p.rows "Mailbox Service"
    printing_copies :=
      get_income_zero p.rows "Printing" + get_income_zero p.rows "Copies"
        + get_income_zero p.rows "Color Copies"
    shred_sales :=
      get_income_zero p.rows "Shred Sales" + get_income_zero p.rows "Shred"
        + get_income_zero p.rows "Shredding"
    monthly_goal := monthly_goal
    prorated_goal := prorated_goal
    variance := variance
    ups_packages_col := ups_packages.getD 0
    is6 := is_6day }

/-! ## Aggregator (`build_totals_row`, `footer_rows`) -/

/-- pandas `Series.sum(min_count=1)` over a column with NaN as `none`:
absent entries are skipped; the sum is absent when no entry is present. -/
def sum_min_count_one (l : List (Option ℚ)) : Option ℚ :=
  if l.all (fun x => x.isNone) then none else some (l.filterMap id).sum

/-- A subtotal row produced by `build_totals_row`. -/
structure AggregateRow where
  center_label : String
  total_sales : Option ℚ
  psp : Option ℚ
  net_sales : Option ℚ
  avg_meter_pkg : Option ℚ
  ups_shipping : Option ℚ
  avg_ups_pkg : Option ℚ
  meter_sales : Option ℚ
  packaging_bucket : Option ℚ
  notary_plus_psp : Option ℚ
  mailbox_sales : Option ℚ
  printing_copies : Option ℚ
  shred_sales : Option ℚ
  monthly_goal : Option ℚ
  prorated_goal : Option ℚ
  variance : Option ℚ
deriving DecidableEq, Repr

/-- Aggregator `build_totals_row(label, dfx)`: `min_count=1` sums of the currency
columns, a plain sum of `_ups_packages`, and the group-level weighted
per-package averages. -/
def build_totals_row (label : String) (dfx : List StoreMetrics) : AggregateRow :=
  let pkgs : Nat := (dfx.map (fun r => r.ups_packages_col)).sum
  let ups_ship := sum_min_count_one (dfx.map (fun r => r.ups_shipping))
  let meter := sum_min_count_one (dfx.map (fun r => r.meter_sales))
  let ts := sum_min_count_one (dfx.map (fun r => r.total_sales))
  let psp := sum_min_count_one (dfx.map (fun r => some r.psp))
  let net := sum_min_count_one (dfx.map (fun r => r.net_sales))
  let avg_ups := if pkgs = 0 then none else ups_ship.map (fun s => s / (pkgs : ℚ))
  let avg_meter := if pkgs = 0 then none else meter.map (fun s => s / (pkgs : ℚ))
  let pror_goal := sum_min_count_one (dfx.map (fun r => r.prorated_goal))
  let var :=
    match net, pror_goal with
    | some n, some g => some (n - g)
    | _, _ => none
  { center_label := label
    total_sales := ts
    psp := psp
    net_sales := net
    avg_meter_pkg := avg_meter
    ups_shipping := ups_ship
    avg_ups_pkg := avg_ups
    meter_sales := meter
    packaging_bucket := sum_min_count_one (dfx.map (fun r => some r.packaging_bucket))
    notary_plus_psp := sum_min_count_one (dfx.map (fun r => some r.notary_plus_psp))
    mailbox_sales := sum_min_count_one (dfx.map (fun r => r.mailbox_sales))
    printing_copies := sum_min_count_one (dfx.map (fun r => some r.printing_copies))
    shred_sales := sum_min_count_one (dfx.map (fun r => some r.shred_sales))
    monthly_goal := sum_min_count_one (dfx.map (fun r => r.monthly_goal))
    prorated_goal := pror_goal
    variance := var }

/-- The subtotal block: a 6-day row if that group is non-empty, a 7-day
row if that group is non-empty, then the all-stores row. -/
def footer_rows (rows : List StoreMetrics) : List AggregateRow :=
  let df6 := rows.filter (fun r => r.is6)
  let df7 := rows.filter (fun r => !r.is6)
  (if df6.isEmpty then [] else [build_totals_row "TOTAL (6-day stores)" df6])
    ++ (if df7.isEmpty then [] else [build_totals_row "TOTAL (7-day stores)" df7])
    ++ [build_totals_row "TOTAL (All stores)" rows]

/-! ## Test fixtures -/

/-- The end-to-end sample report of the spec: Center 1504, range
`2/9/2026 to 2/14/2026`, a PSP row of `$500.00`, Totals `$18,057.89`. -/
def sampleLines : List String :=
  ["Center:", "1504", "", "Date Range:", "2/9/2026", "to", "2/14/2026", "",
   "+ Public Service Payments 5 5 $500.00 $100.00 $100.00",
   "+ Shipping Charges (UPS) 7 7 $1,234.56 $176.37 $176.37",
   "Totals 100 200 $18,057.89 $180.58 $90.29"]

/-- A `StoreMetrics` fixture carrying only the UPS fields of interest. -/
def testStore (ship : Option ℚ) (pkgs : Nat) (avg : Option ℚ) : StoreMetrics :=
  { center_label := "", store := "", date_range_str := "", workweek := ""
    total_sales := none, psp := 0, net_sales := none, avg_meter_pkg := none
    ups_shipping := ship, avg_ups_pkg := avg, meter_sales := none
    packaging_bucket := 0, notary_plus_psp := 0, mailbox_sales := none
    printing_copies := 0, shred_sales := 0, monthly_goal := none
    prorated_goal := none, variance := none, ups_packages_col := pkgs, is6 := false }

/-! ## Calendar lemmas -/

theorem foldl_add_eq_sum (f : Date → ℚ) (l : List Date) (a : ℚ) :
    l.foldl (fun t d => t + f d) a = a + (l.map f).sum := by
  induction l generalizing a with
  | nil => simp
  | cons d l ih => simp [ih, add_assoc]

theorem month_days_ge (y m : Nat) (h1 : 1 ≤ m) (h2 : m ≤ 12) :
    28 ≤ month_days y m := by
  interval_cases m <;> simp only [month_days] <;> (try split) <;> omega

theorem nextDate_in_month (y m k : Nat) (h : k < month_days y m) :
    nextDate ⟨y, m, k⟩ = ⟨y, m, k + 1⟩ := by
  simp [nextDate, h]

theorem datesFrom_month (y m : Nat) :
    ∀ n k, 1 ≤ k → k + n ≤ month_days y m + 1 →
      datesFrom ⟨y, m, k⟩ n = (List.range' k n).map (fun d => ⟨y, m, d⟩) := by
  intro n
  induction n with
  | zero => intro k _ _; simp [datesFrom]
  | succ n ih =>
      intro k hk1 h
      rw [datesFrom, List.range'_succ, List.map_cons]
      congr 1
      cases n with
      | zero => simp [datesFrom]
      | succ n' =>
          have hk : k < month_days y m := by omega
          rw [nextDate_in_month y m k hk]
          exact ih (k + 1) (by omega) (by omega)

theorem daterange_full_month (y m : Nat) :
    daterange_inclusive ⟨y, m, 1⟩ ⟨y, m, month_days y m⟩ =
      (List.range (month_days y m)).map (fun i => ⟨y, m, i + 1⟩) := by
  unfold daterange_inclusive
  have hcnt : toOrdinal ⟨y, m, month_days y m⟩ + 1 - toOrdinal ⟨y, m, 1⟩ =
      month_days y m := by
    simp only [toOrdinal]
    omega
  rw [hcnt]
  rw [datesFrom_month y m (month_days y m) 1 (by omega) (by omega)]
  rw [List.range'_eq_map_range, List.map_map]
  apply List.map_congr_left
  intro i _
  simp [Function.comp, Date.mk.injEq]
  omega

theorem sum_map_const (n : Nat) (c : ℚ) :
    ((List.range n).map (fun _ => c)).sum = n * c := by
  induction n with
  | zero => simp
  | succ k ih =>
      rw [List.range_succ, List.map_append, List.sum_append]
      simp [ih]
      ring

theorem sum_map_ite_zero (l : List Nat) (p : Nat → Bool) (c : ℚ) :
    (l.map (fun x => if p x then 0 else c)).sum =
      ((l.length - l.countP p : Nat) : ℚ) * c := by
  induction l with
  | nil => simp
  | cons a l ih =>
      by_cases h : p a
      · rw [List.map_cons, List.sum_cons, if_pos h, List.countP_cons_of_pos _ _ h, ih]
        simp [Nat.succ_sub_succ]
      · have hle : l.countP p ≤ l.length := l.countP_le_length p
        rw [List.map_cons, List.sum_cons, if_neg h, List.countP_cons_of_neg _ _ (by simp [h]), ih]
        rw [Nat.cast_sub hle, List.length_cons, Nat.cast_sub (by omega)]
        push_cast
        ring

theorem count_sundays_lt (y m : Nat) (h1 : 1 ≤ m) (h2 : m ≤ 12) :
    count_sundays_in_month y m < month_days y m := by
  have hd := month_days_ge y m h1 h2
  by_contra hc
  push_neg at hc
  have hle : count_sundays_in_month y m ≤ month_days y m := by
    have := (List.range (month_days y m)).countP_le_length
      (fun i => is_sunday ⟨y, m, i + 1⟩)
    simpa [count_sundays_in_month] using this
  have heq : count_sundays_in_month y m = month_days y m := le_antisymm hle hc
  have hall : ∀ i ∈ List.range (month_days y m),
      is_sunday (⟨y, m, i + 1⟩ : Date) = true := by
    rw [← List.countP_eq_length]
    simpa [count_sundays_in_month] using heq
  have h0 := hall 0 (List.mem_range.2 (by omega))
  have h1' := hall 1 (List.mem_range.2 (by omega))
  simp only [is_sunday, weekday, toOrdinal, beq_iff_eq] at h0 h1'
  omega

theorem daily_seven (g : ℚ) (y m i : Nat) :
    dailyContribution g false ⟨y, m, i + 1⟩ = g / month_days y m := by
  simp [dailyContribution]

theorem daily_six (g : ℚ) (y m i : Nat)
    (hw : month_days y m - count_sundays_in_month y m ≠ 0) :
    dailyContribution g true ⟨y, m, i + 1⟩ =
      if is_sunday ⟨y, m, i + 1⟩ then 0
      else g / (month_days y m - count_sundays_in_month y m : Nat) := by
  simp [dailyContribution, hw]

/-- C1: Prorating the exact full calendar month reproduces the
monthly goal: with `six_day_store = false` the result is exactly `g`;
with `six_day_store = true` the sum of the daily contributions over the
full month is also exactly `g`, and every Sunday in the range
contributes exactly 0. -/
theorem C1_full_month_proration (g : ℚ) (y m : Nat) (h1 : 1 ≤ m) (h2 : m ≤ 12) :
    prorated_goal_exact_calendar (some g) (some ⟨y, m, 1⟩)
        (some ⟨y, m, month_days y m⟩) false = some g ∧
    prorated_goal_exact_calendar (some g) (some ⟨y, m, 1⟩)
        (some ⟨y, m, month_days y m⟩) true = some g ∧
    ∀ d ∈ daterange_inclusive ⟨y, m, 1⟩ ⟨y, m, month_days y m⟩,
      is_sunday d = true → dailyContribution g true d = 0 := by
  have hdim : 28 ≤ month_days y m := month_days_ge y m h1 h2
  have hcnt : count_sundays_in_month y m < month_days y m := count_sundays_lt y m h1 h2
  refine ⟨?_, ?_, ?_⟩
  · simp only [prorated_goal_exact_calendar, prorateSum, Option.some.injEq]
    rw [foldl_add_eq_sum, daterange_full_month, List.map_map, zero_add]
    have hfun : ((fun d => dailyContribution g false d) ∘
        fun i => (⟨y, m, i + 1⟩ : Date)) = fun _ : Nat => g / (month_days y m : ℚ) := by
      funext i
      simpa [Function.comp] using daily_seven g y m i
    rw [hfun, sum_map_const]
    have hne : (month_days y m : ℚ) ≠ 0 := by
      exact_mod_cast (by omega : month_days y m ≠ 0)
    rw [mul_comm]
    exact div_mul_cancel₀ g hne
  · have hw0 : month_days y m - count_sundays_in_month y m ≠ 0 := by omega
    simp only [prorated_goal_exact_calendar, prorateSum, Option.some.injEq]
    rw [foldl_add_eq_sum, daterange_full_month, List.map_map, zero_add]
    have hfun : ((fun d => dailyContribution g true d) ∘
        fun i => (⟨y, m, i + 1⟩ : Date)) =
        fun i : Nat => if is_sunday ⟨y, m, i + 1⟩ then 0
          else g / ((month_days y m - count_sundays_in_month y m : Nat) : ℚ) := by
      funext i
      simpa [Function.comp] using daily_six g y m i hw0
    rw [hfun, sum_map_ite_zero, List.length_range]
    have hcp : (List.range (month_days y m)).countP
        (fun j => is_sunday ⟨y, m, j + 1⟩) = count_sundays_in_month y m := rfl
    rw [hcp]
    have hne : ((month_days y m - count_sundays_in_month y m : Nat) : ℚ) ≠ 0 := by
      exact_mod_cast hw0
    rw [mul_comm]
    exact div_mul_cancel₀ g hne
  · intro d _ hs
    simp [dailyContribution, hs]

/-- Witness for C1 at February 2026 with the configured goal 80000. -/
theorem C1_full_month_proration_witness :
    prorated_goal_exact_calendar (some 80000) (some ⟨2026, 2, 1⟩)
        (some ⟨2026, 2, 28⟩) false = some 80000 ∧
    prorated_goal_exact_calendar (some 80000) (some ⟨2026, 2, 1⟩)
        (some ⟨2026, 2, 28⟩) true = some 80000 ∧
    ∀ d ∈ daterange_inclusive ⟨2026, 2, 1⟩ ⟨2026, 2, 28⟩,
      is_sunday d = true → dailyContribution 80000 true d = 0 := by
  have h := C1_full_month_proration 80000 2026 2 (by decide) (by decide)
  have h28 : month_days 2026 2 = 28 := by decide
  rw [h28] at h
  exact h

/-! ## Net sales (C2) -/

/-- C2: `net_sales` is the Totals-row income minus the
"Public Service Payments" category income when the Totals row is
present, and absent when it is absent; end-to-end, the sample report
(Center 1504, 2/9/2026 to 2/14/2026, Totals `$18,057.89`, PSP `$500.00`)
yields `net_sales = 17557.89`. -/
theorem C2_net_sales (glookup : String → Option (ℚ × Bool)) (idx : Nat) (p : ParsedReport) :
    (∀ t, p.totals = some t →
      (computeMetrics glookup idx p).net_sales =
        some (t.income - get_income_zero p.rows "Public Service Payments")) ∧
    (p.totals = none → (computeMetrics glookup idx p).net_sales = none) ∧
    (computeMetrics (fun _ => none) 1 (parse_worker_sales_by_category sampleLines)).net_sales
      = some (1755789 / 100) := by
  refine ⟨?_, ?_, ?_⟩
  · intro t ht
    simp [computeMetrics, ht]
  · intro ht
    simp [computeMetrics, ht]
  · have h1 : (computeMetrics (fun _ => none) 1
        (parse_worker_sales_by_category sampleLines)).net_sales
        = some (money_to_float "18,057.89" - money_to_float "500.00") := rfl
    have h2 : money_to_float "18,057.89" = (18057 : ℚ) + (89 : ℚ) / 10 ^ (2 : Nat) := rfl
    have h3 : money_to_float "500.00" = (500 : ℚ) + (0 : ℚ) / 10 ^ (2 : Nat) := rfl
    rw [h1, h2, h3]
    norm_num

/-- Witness for C2: the sample report's Totals row feeds the
present-Totals branch of the theorem. -/
theorem C2_net_sales_witness :
    (computeMetrics (fun _ => none) 1 (parse_worker_sales_by_category sampleLines)).net_sales
      = some ((rowOfFields ⟨100, 200, "18,057.89", "180.58", "90.29"⟩).income -
          get_income_zero (parse_worker_sales_by_category sampleLines).rows
            "Public Service Payments") :=
  (C2_net_sales (fun _ => none) 1 (parse_worker_sales_by_category sampleLines)).1
    (rowOfFields ⟨100, 200, "18,057.89", "180.58", "90.29"⟩) rfl

/-! ## Duplicate categories: last occurrence wins (C5) -/

theorem rows_of_concat (ms : List (String × CategoryRow)) (kv : String × CategoryRow)
    (k : String) :
    rows_of (ms ++ [kv]) k = if k = kv.1 then some kv.2 else rows_of ms k := by
  simp [rows_of, List.foldl_append]

theorem rows_of_lookup (ms : List (String × CategoryRow)) (k : String) :
    rows_of ms k = ((ms.filter (fun kv => kv.1 == k)).map (fun kv => kv.2)).getLast? := by
  induction ms using List.reverseRecOn with
  | nil => simp [rows_of]
  | append_singleton ms kv ih =>
      rw [rows_of_concat]
      by_cases h : k = kv.1
      · simp [List.filter_append, h.symm, List.getLast?_concat]
      · have hb : (kv.1 == k) = false := by
          simp [Ne.symm h]
        simp [List.filter_append, hb, ih, h]

/-- C5: When the same trimmed category label occurs on several
category lines, the `rows` mapping holds the values of the last
occurrence: later matches overwrite earlier ones. -/
theorem C5_last_occurrence_wins (lines : List String) (cat : String)
    (pre : List (String × CategoryRow)) (v : CategoryRow)
    (h : (rowMatches lines).filter (fun kv => kv.1 == cat) = pre ++ [(cat, v)]) :
    (parse_worker_sales_by_category lines).rows cat = some v := by
  have hr : (parse_worker_sales_by_category lines).rows = rows_of (rowMatches lines) := rfl
  rw [hr, rows_of_lookup, h, List.map_append]
  simp [List.getLast?_concat]

/-- Witness for C5: two `Notary` lines with different values; the
mapping holds the second line's values. -/
theorem C5_last_occurrence_wins_witness :
    (parse_worker_sales_by_category
        ["+ Notary 1 1 $5.00 $5.00 $5.00", "+ Notary 2 2 $7.00 $3.50 $3.50"]).rows "Notary"
      = some (rowOfFields ⟨2, 2, "7.00", "3.50", "3.50"⟩) :=
  C5_last_occurrence_wins
    ["+ Notary 1 1 $5.00 $5.00 $5.00", "+ Notary 2 2 $7.00 $3.50 $3.50"] "Notary"
    [("Notary", rowOfFields ⟨1, 1, "5.00", "5.00", "5.00"⟩)]
    (rowOfFields ⟨2, 2, "7.00", "3.50", "3.50"⟩) rfl

/-! ## Group-level weighted averages (C3) -/

theorem sum_min_count_one_of_any (l : List (Option ℚ))
    (h : l.any (fun q => q.isSome) = true) :
    sum_min_count_one l = some (l.filterMap id).sum := by
  have ha : l.all (fun x => x.isNone) = false := by
    rcases List.any_eq_true.1 h with ⟨q, hq, hs⟩
    apply List.all_eq_false.2
    exact ⟨q, hq, by cases q <;> simp_all⟩
  simp [sum_min_count_one, ha]

/-- C3: The aggregate row's `avg_ups_package` is the correctly
weighted average `(group UPS Shipping sum) / (group UPS package-count
sum)` — and for two stores of unequal package volume this differs from
the arithmetic mean of the two per-store averages. -/
theorem C3_weighted_average (label : String) (dfx : List StoreMetrics)
    (hne : dfx ≠ [])
    (hpk : (dfx.map (fun r => r.ups_packages_col)).sum ≠ 0) :
    ((build_totals_row label dfx).avg_ups_pkg =
      (sum_min_count_one (dfx.map (fun r => r.ups_shipping))).map
        (fun s => s / (((dfx.map (fun r => r.ups_packages_col)).sum : Nat) : ℚ))) ∧
    ((dfx.map (fun r => r.ups_shipping)).any (fun q => q.isSome) = true →
      (build_totals_row label dfx).avg_ups_pkg =
        some (((dfx.map (fun r => r.ups_shipping)).filterMap id).sum /
          (((dfx.map (fun r => r.ups_packages_col)).sum : Nat) : ℚ))) ∧
    ((build_totals_row "pair" [testStore (some 12) 1 (some 12),
        testStore (some 6) 6 (some 1)]).avg_ups_pkg = some (18 / 7) ∧
      ((testStore (some 12) 1 (some 12)).avg_ups_pkg.getD 0 +
        (testStore (some 6) 6 (some 1)).avg_ups_pkg.getD 0) / 2 = 13 / 2 ∧
      (18 / 7 : ℚ) ≠ 13 / 2) := by
  refine ⟨?_, ?_, ?_, ?_, ?_⟩
  · simp [build_totals_row, hpk]
  · intro hany
    have hdef : (build_totals_row label dfx).avg_ups_pkg =
        (if (dfx.map (fun r => r.ups_packages_col)).sum = 0 then none
         else (sum_min_count_one (dfx.map (fun r => r.ups_shipping))).map
           (fun s => s / (((dfx.map (fun r => r.ups_packages_col)).sum : Nat) : ℚ))) := rfl
    rw [hdef, if_neg hpk, sum_min_count_one_of_any _ hany]
    rfl
  · have h : (build_totals_row "pair" [testStore (some 12) 1 (some 12),
        testStore (some 6) 6 (some 1)]).avg_ups_pkg = some ((12 + (6 + 0)) / (7 : ℚ)) := rfl
    rw [h]
    norm_num
  · have h1 : (testStore (some 12) 1 (some 12)).avg_ups_pkg.getD 0 = (12 : ℚ) := rfl
    have h2 : (testStore (some 6) 6 (some 1)).avg_ups_pkg.getD 0 = (1 : ℚ) := rfl
    rw [h1, h2]
    norm_num
  · norm_num

/-- Witness for C3 at a concrete two-store group. -/
theorem C3_weighted_average_witness :
    (build_totals_row "pair" [testStore (some 12) 1 (some 12),
        testStore (some 6) 6 (some 1)]).avg_ups_pkg =
      some ((([testStore (some 12) 1 (some 12),
        testStore (some 6) 6 (some 1)].map (fun r => r.ups_shipping)).filterMap id).sum /
        ((([testStore (some 12) 1 (some 12),
          testStore (some 6) 6 (some 1)].map (fun r => r.ups_packages_col)).sum : Nat) : ℚ)) :=
  (C3_weighted_average "pair" [testStore (some 12) 1 (some 12), testStore (some 6) 6 (some 1)]
    (by simp [testStore]) (by decide)).2.1 (by decide)

/-! ## Absent totals propagate as absent, never as zero (C4) -/

theorem sum_min_count_one_cons_none (l : List (Option ℚ)) :
    sum_min_count_one (none :: l) = sum_min_count_one l := by
  simp [sum_min_count_one]

theorem sum_min_count_one_all_none (l : List (Option ℚ)) (h : ∀ x ∈ l, x = none) :
    sum_min_count_one l = none := by
  have : l.all (fun x => x.isNone) = true := by
    apply List.all_eq_true.2
    intro x hx
    simp [h x hx]
  simp [sum_min_count_one, this]

theorem filterMap_id_map_some {α : Type} (f : α → ℚ) (l : List α) :
    (l.map (fun x => some (f x))).filterMap id = l.map f := by
  induction l with
  | nil => rfl
  | cons a l ih => simp [ih]

theorem sum_min_count_one_map_some {α : Type} (f : α → ℚ) (a : α) (l : List α) :
    sum_min_count_one ((a :: l).map (fun x => some (f x))) = some (((a :: l).map f).sum) := by
  have hcond : ¬(((a :: l).map (fun x => some (f x))).all (fun x => x.isNone) = true) := by
    simp
  rw [sum_min_count_one, filterMap_id_map_some, if_neg hcond]

theorem sum_min_count_one_map_none {α : Type} (g : α → Option ℚ) (l : List α)
    (h : ∀ x ∈ l, g x = none) : sum_min_count_one (l.map g) = none := by
  apply sum_min_count_one_all_none
  intro x hx
  rcases List.mem_map.1 hx with ⟨s, hs, hxs⟩
  rw [← hxs]
  exact h s hs

/-- C4: A report with no recognizable Totals line parses with
`totals` absent, and every group-level currency-field sum of
`build_totals_row` uses minimum-count-one semantics: for each of the
optional currency columns (Total Sales, Net Sales, UPS Shipping,
Meter, Mailbox, Monthly Goal, Prorated Goal) a row whose value is
absent is skipped — the group sum is unchanged, never treated as 0 —
and the group sum is itself absent when every row's value is absent;
the always-present currency columns (PSP, Packaging, Notary+PSP,
Printing, Shred) are summed over exactly the present values and are
absent for an empty group. An absent totals income never contributes
0 to any later sum. -/
theorem C4_absent_totals (lines : List String) (label : String)
    (r : StoreMetrics) (rs : List StoreMetrics)
    (h1 : ∀ line ∈ lines, totals_match line.toList = none) :
    (parse_worker_sales_by_category lines).totals = none ∧
    (r.total_sales = none → (build_totals_row label (r :: rs)).total_sales =
      (build_totals_row label rs).total_sales) ∧
    (r.net_sales = none → (build_totals_row label (r :: rs)).net_sales =
      (build_totals_row label rs).net_sales) ∧
    (r.ups_shipping = none → (build_totals_row label (r :: rs)).ups_shipping =
      (build_totals_row label rs).ups_shipping) ∧
    (r.meter_sales = none → (build_totals_row label (r :: rs)).meter_sales =
      (build_totals_row label rs).meter_sales) ∧
    (r.mailbox_sales = none → (build_totals_row label (r :: rs)).mailbox_sales =
      (build_totals_row label rs).mailbox_sales) ∧
    (r.monthly_goal = none → (build_totals_row label (r :: rs)).monthly_goal =
      (build_totals_row label rs).monthly_goal) ∧
    (r.prorated_goal = none → (build_totals_row label (r :: rs)).prorated_goal =
      (build_totals_row label rs).prorated_goal) ∧
    ((∀ x ∈ r :: rs, x.total_sales = none) →
      (build_totals_row label (r :: rs)).total_sales = none) ∧
    ((∀ x ∈ r :: rs, x.net_sales = none) →
      (build_totals_row label (r :: rs)).net_sales = none) ∧
    ((∀ x ∈ r :: rs, x.ups_shipping = none) →
      (build_totals_row label (r :: rs)).ups_shipping = none) ∧
    ((∀ x ∈ r :: rs, x.meter_sales = none) →
      (build_totals_row label (r :: rs)).meter_sales = none) ∧
    ((∀ x ∈ r :: rs, x.mailbox_sales = none) →
      (build_totals_row label (r :: rs)).mailbox_sales = none) ∧
    ((∀ x ∈ r :: rs, x.monthly_goal = none) →
      (build_totals_row label (r :: rs)).monthly_goal = none) ∧
    ((∀ x ∈ r :: rs, x.prorated_goal = none) →
      (build_totals_row label (r :: rs)).prorated_goal = none) ∧
    (build_totals_row label (r :: rs)).psp =
      some (((r :: rs).map (fun x => x.psp)).sum) ∧
    (build_totals_row label (r :: rs)).packaging_bucket =
      some (((r :: rs).map (fun x => x.packaging_bucket)).sum) ∧
    (build_totals_row label (r :: rs)).notary_plus_psp =
      some (((r :: rs).map (fun x => x.notary_plus_psp)).sum) ∧
    (build_totals_row label (r :: rs)).printing_copies =
      some (((r :: rs).map (fun x => x.printing_copies)).sum) ∧
    (build_totals_row label (r :: rs)).shred_sales =
      some (((r :: rs).map (fun x => x.shred_sales)).sum) ∧
    (build_totals_row label []).psp = none ∧
    (build_totals_row label []).packaging_bucket = none ∧
    (build_totals_row label []).notary_plus_psp = none ∧
    (build_totals_row label []).printing_copies = none ∧
    (build_totals_row label []).shred_sales = none := by
  refine ⟨?_, ?_, ?_, ?_, ?_, ?_, ?_, ?_, ?_, ?_, ?_, ?_, ?_, ?_, ?_, ?_, ?_, ?_, ?_, ?_,
    rfl, rfl, rfl, rfl, rfl⟩
  · have hf : lines.findSome? (fun line => totals_match line.toList) = none :=
      List.findSome?_eq_none_iff.2 h1
    have hdef : (parse_worker_sales_by_category lines).totals =
        (lines.findSome? fun line => totals_match line.toList).map rowOfFields := rfl
    rw [hdef, hf]
    rfl
  · intro h
    simp only [build_totals_row, List.map_cons, h]
    rw [sum_min_count_one_cons_none]
  · intro h
    simp only [build_totals_row, List.map_cons, h]
    rw [sum_min_count_one_cons_none]
  · intro h
    simp only [build_totals_row, List.map_cons, h]
    rw [sum_min_count_one_cons_none]
  · intro h
    simp only [build_totals_row, List.map_cons, h]
    rw [sum_min_count_one_cons_none]
  · intro h
    simp only [build_totals_row, List.map_cons, h]
    rw [sum_min_count_one_cons_none]
  · intro h
    simp only [build_totals_row, List.map_cons, h]
    rw [sum_min_count_one_cons_none]
  · intro h
    simp only [build_totals_row, List.map_cons, h]
    rw [sum_min_count_one_cons_none]
  · intro hall
    simp only [build_totals_row]
    exact sum_min_count_one_map_none _ _ hall
  · intro hall
    simp only [build_totals_row]
    exact sum_min_count_one_map_none _ _ hall
  · intro hall
    simp only [build_totals_row]
    exact sum_min_count_one_map_none _ _ hall
  · intro hall
    simp only [build_totals_row]
    exact sum_min_count_one_map_none _ _ hall
  · intro hall
    simp only [build_totals_row]
    exact sum_min_count_one_map_none _ _ hall
  · intro hall
    simp only [build_totals_row]
    exact sum_min_count_one_map_none _ _ hall
  · intro hall
    simp only [build_totals_row]
    exact sum_min_count_one_map_none _ _ hall
  · simp only [build_totals_row]
    exact sum_min_count_one_map_some _ r rs
  · simp only [build_totals_row]
    exact sum_min_count_one_map_some _ r rs
  · simp only [build_totals_row]
    exact sum_min_count_one_map_some _ r rs
  · simp only [build_totals_row]
    exact sum_min_count_one_map_some _ r rs
  · simp only [build_totals_row]
    exact sum_min_count_one_map_some _ r rs

/-- Witness for C4: a report with a category row but no Totals line,
and a group built from a store whose optional currency fields are all
absent — each hypothesis of the theorem discharged concretely. -/
theorem C4_absent_totals_witness :
    (parse_worker_sales_by_category ["+ Notary 1 1 $5.00 $5.00 $5.00", "hello"]).totals
        = none ∧
    (build_totals_row "g" [testStore none 0 none]).total_sales =
      (build_totals_row "g" []).total_sales ∧
    (build_totals_row "g" [testStore none 0 none]).monthly_goal =
      (build_totals_row "g" []).monthly_goal ∧
    (build_totals_row "g" [testStore none 0 none]).total_sales = none ∧
    (build_totals_row "g" [testStore none 0 none]).prorated_goal = none ∧
    (build_totals_row "g" [testStore none 0 none]).psp =
      some (([testStore none 0 none].map (fun x => x.psp)).sum) ∧
    (build_totals_row "g" []).psp = none := by
  have h := C4_absent_totals ["+ Notary 1 1 $5.00 $5.00 $5.00", "hello"] "g"
    (testStore none 0 none) [] (by decide)
  obtain ⟨ht, hs1, _, _, _, _, hs6, _, ha1, _, _, _, _, _, ha7, hp1, _, _, _, _,
    he1, _, _, _, _⟩ := h
  have habs : ∀ x ∈ [testStore none 0 none], x.total_sales = none := by
    intro x hx
    rw [List.mem_singleton] at hx
    subst hx
    rfl
  have habs7 : ∀ x ∈ [testStore none 0 none], x.prorated_goal = none := by
    intro x hx
    rw [List.mem_singleton] at hx
    subst hx
    rfl
  exact ⟨ht, hs1 rfl, hs6 rfl, ha1 habs, ha7 habs7, hp1, he1⟩

/-! ## Footer rows: one subtotal per non-empty group (C8) -/

/-- C8: The subtotal block holds one row per non-empty workweek
group plus the all-stores row, in the fixed order 6-day, 7-day, all;
with zero 6-day stores the 6-day subtotal row is omitted entirely. -/
theorem C8_footer_structure (rows : List StoreMetrics) :
    ((footer_rows rows).map (fun a => a.center_label) =
      (if (rows.filter (fun r => r.is6)).isEmpty then [] else ["TOTAL (6-day stores)"]) ++
      (if (rows.filter (fun r => !r.is6)).isEmpty then [] else ["TOTAL (7-day stores)"]) ++
      ["TOTAL (All stores)"]) ∧
    ((rows.filter (fun r => r.is6)).isEmpty = true →
      ∀ a ∈ footer_rows rows, a.center_label ≠ "TOTAL (6-day stores)") := by
  have hmap : (footer_rows rows).map (fun a => a.center_label) =
      (if (rows.filter (fun r => r.is6)).isEmpty then [] else ["TOTAL (6-day stores)"]) ++
      (if (rows.filter (fun r => !r.is6)).isEmpty then [] else ["TOTAL (7-day stores)"]) ++
      ["TOTAL (All stores)"] := by
    unfold footer_rows
    by_cases h6 : (rows.filter (fun r => r.is6)).isEmpty <;>
      by_cases h7 : (rows.filter (fun r => !r.is6)).isEmpty <;>
        simp [h6, h7, build_totals_row]
  refine ⟨hmap, ?_⟩
  intro h6 a ha hlab
  have hm := List.mem_map_of_mem (fun a => a.center_label) ha
  rw [hmap] at hm
  simp only at hm
  rw [hlab, if_pos h6] at hm
  by_cases h7 : (rows.filter (fun r => !r.is6)).isEmpty <;> simp [h7] at hm

/-- Witness for C8: a single 7-day store, so the 6-day subtotal row is
omitted and only the 7-day and all-stores rows appear. -/
theorem C8_footer_structure_witness :
    (footer_rows [testStore none 0 none]).map (fun a => a.center_label) =
      ["TOTAL (7-day stores)", "TOTAL (All stores)"] ∧
    ∀ a ∈ footer_rows [testStore none 0 none],
      a.center_label ≠ "TOTAL (6-day stores)" := by
  have h := C8_footer_structure [testStore none 0 none]
  constructor
  · rw [h.1]
    rfl
  · exact h.2 (by rfl)

/-! ## Zero UPS package count (C9) -/

/-- C9: A "Shipping Charges (UPS)" row with `customer_count = 0`
yields an absent (not 0) package count — Python `or None` — and both
per-package averages absent: the zero-divisor branch is unreachable. -/
theorem C9_zero_package_count (glookup : String → Option (ℚ × Bool)) (idx : Nat)
    (p : ParsedReport) (r : CategoryRow)
    (h : p.rows "Shipping Charges (UPS)" = some r) (h0 : r.customer_count = 0) :
    ups_packages_of p.rows = none ∧
    (computeMetrics glookup idx p).avg_ups_pkg = none ∧
    (computeMetrics glookup idx p).avg_meter_pkg = none := by
  have hu : ups_packages_of p.rows = none := by
    simp [ups_packages_of, get_customer_count, h, h0]
  refine ⟨hu, ?_, ?_⟩ <;>
    · simp only [computeMetrics, hu]
      cases get_income p.rows "Shipping Charges (UPS)" <;>
        cases get_income p.rows "Meter Mail" <;> rfl

/-- Witness for C9: a UPS row with 0 customers and nonzero income. -/
theorem C9_zero_package_count_witness :
    ups_packages_of (parse_worker_sales_by_category
        ["+ Shipping Charges (UPS) 0 3 $10.00 $0.00 $3.33"]).rows = none ∧
    (computeMetrics (fun _ => none) 1 (parse_worker_sales_by_category
        ["+ Shipping Charges (UPS) 0 3 $10.00 $0.00 $3.33"])).avg_ups_pkg = none ∧
    (computeMetrics (fun _ => none) 1 (parse_worker_sales_by_category
        ["+ Shipping Charges (UPS) 0 3 $10.00 $0.00 $3.33"])).avg_meter_pkg = none :=
  C9_zero_package_count (fun _ => none) 1
    (parse_worker_sales_by_category ["+ Shipping Charges (UPS) 0 3 $10.00 $0.00 $3.33"])
    (rowOfFields ⟨0, 3, "10.00", "0.00", "3.33"⟩) rfl rfl

/-! ## Goal entries with absent goals are excluded (C10) -/

theorem goal_lookup_concat_none (es : List GoalEntry) (e : GoalEntry) (c : String)
    (hg : e.goal = none) :
    goal_lookup (es ++ [e]) c = goal_lookup es c := by
  simp [goal_lookup, List.foldl_append, hg]

theorem goal_lookup_concat_other (es : List GoalEntry) (e : GoalEntry) (c : String)
    (hc : c ≠ strTrim e.center) :
    goal_lookup (es ++ [e]) c = goal_lookup es c := by
  simp only [goal_lookup, List.foldl_append, List.foldl_cons, List.foldl_nil]
  cases e.goal with
  | none => rfl
  | some g =>
      by_cases hz : strTrim e.center ≠ ""
      · simp [hz, hc]
      · simp [hz]

theorem goal_lookup_excludes (entries : List GoalEntry) (c : String)
    (h : ∀ e ∈ entries, strTrim e.center = c → e.goal = none) :
    goal_lookup entries c = none := by
  induction entries using List.reverseRecOn with
  | nil => rfl
  | append_singleton es e ih =>
      have ih' := ih (fun x hx hc => h x (List.mem_append_left _ hx) hc)
      by_cases hc : strTrim e.center = c
      · rw [goal_lookup_concat_none es e c
          (h e (List.mem_append_right _ (List.mem_singleton_self e)) hc)]
        exact ih'
      · rw [goal_lookup_concat_other es e c (fun hx => hc hx.symm)]
        exact ih'

/-- C10: A goal-configuration entry whose monthly goal is absent is
excluded from the lookup entirely, so its 6-day flag is ignored: the
store is classified 7-day and both `monthly_goal` and `prorated_goal`
are absent even when the flag was set for that center. -/
theorem C10_absent_goal_excluded (entries : List GoalEntry) (idx : Nat) (p : ParsedReport)
    (h : ∀ e ∈ entries, strTrim e.center = strTrim (p.center.getD "") → e.goal = none) :
    goal_lookup entries (strTrim (p.center.getD "")) = none ∧
    (computeMetrics (goal_lookup entries) idx p).workweek = "7-day" ∧
    (computeMetrics (goal_lookup entries) idx p).is6 = false ∧
    (computeMetrics (goal_lookup entries) idx p).monthly_goal = none ∧
    (computeMetrics (goal_lookup entries) idx p).prorated_goal = none := by
  have hl := goal_lookup_excludes entries (strTrim (p.center.getD "")) h
  have hres : (if strTrim (p.center.getD "") = "" then none
      else goal_lookup entries (strTrim (p.center.getD ""))) = none := by
    by_cases hz : strTrim (p.center.getD "") = "" <;> simp [hz, hl]
  refine ⟨hl, ?_, ?_, ?_, ?_⟩ <;> simp only [computeMetrics, hres] <;> rfl

/-- Witness for C10: an entry for center 1504 with the 6-day flag set
but no goal; the sample report's store still comes out 7-day with
absent goals. -/
theorem C10_absent_goal_excluded_witness :
    goal_lookup [⟨"1504", none, true⟩]
        (strTrim ((parse_worker_sales_by_category sampleLines).center.getD "")) = none ∧
    (computeMetrics (goal_lookup [⟨"1504", none, true⟩]) 1
        (parse_worker_sales_by_category sampleLines)).workweek = "7-day" ∧
    (computeMetrics (goal_lookup [⟨"1504", none, true⟩]) 1
        (parse_worker_sales_by_category sampleLines)).is6 = false ∧
    (computeMetrics (goal_lookup [⟨"1504", none, true⟩]) 1
        (parse_worker_sales_by_category sampleLines)).monthly_goal = none ∧
    (computeMetrics (goal_lookup [⟨"1504", none, true⟩]) 1
        (parse_worker_sales_by_category sampleLines)).prorated_goal = none :=
  C10_absent_goal_excluded [⟨"1504", none, true⟩] 1
    (parse_worker_sales_by_category sampleLines)
    (by intro e he _; simp at he; rw [he])

/-! ## The `$` prefix is required, not optional (C6) -/

theorem matchWs_eq_some (cs r : List Char) (h : matchWs cs = some r) :
    r = cs.dropWhile isSpaceCh := by
  unfold matchWs at h
  split at h
  · exact absurd h (by simp)
  · exact (Option.some.inj h).symm

theorem matchInt_eq_some (cs : List Char) (p : Nat × List Char) (h : matchInt cs = some p) :
    p.2 = cs.dropWhile isDigitCh := by
  simp only [matchInt] at h
  split at h
  · exact absurd h (by simp)
  · rw [← Option.some.inj h]

theorem matchMoney_no_dollar (cs : List Char) (h : '$' ∉ cs) : matchMoney cs = none := by
  cases cs with
  | nil => rfl
  | cons c rest =>
      have hc : ¬(c = '$') := fun e => h (e ▸ List.mem_cons_self c rest)
      simp [matchMoney, hc]

theorem matchTail_no_dollar (cs : List Char) (h : '$' ∉ cs) : matchTail cs = none := by
  unfold matchTail
  cases hw1 : matchWs cs with
  | none => rfl
  | some r1 =>
    have h1 : '$' ∉ r1 := by
      rw [matchWs_eq_some cs r1 hw1]
      exact fun hx => h ((List.dropWhile_sublist _).subset hx)
    rw [Option.some_bind]
    cases hi1 : matchInt r1 with
    | none => rfl
    | some p1 =>
      have h2 : '$' ∉ p1.2 := by
        rw [matchInt_eq_some r1 p1 hi1]
        exact fun hx => h1 ((List.dropWhile_sublist _).subset hx)
      rw [Option.some_bind]
      cases hw2 : matchWs p1.2 with
      | none => rfl
      | some r2 =>
        have h3 : '$' ∉ r2 := by
          rw [matchWs_eq_some p1.2 r2 hw2]
          exact fun hx => h2 ((List.dropWhile_sublist _).subset hx)
        rw [Option.some_bind]
        cases hi2 : matchInt r2 with
        | none => rfl
        | some p2 =>
          have h4 : '$' ∉ p2.2 := by
            rw [matchInt_eq_some r2 p2 hi2]
            exact fun hx => h3 ((List.dropWhile_sublist _).subset hx)
          rw [Option.some_bind]
          cases hw3 : matchWs p2.2 with
          | none => rfl
          | some r3 =>
            have h5 : '$' ∉ r3 := by
              rw [matchWs_eq_some p2.2 r3 hw3]
              exact fun hx => h4 ((List.dropWhile_sublist _).subset hx)
            rw [Option.some_bind, matchMoney_no_dollar r3 h5]
            rfl

theorem rowCandidate_no_dollar (rest : List Char) (w k : Nat) (h : '$' ∉ rest) :
    rowCandidate rest w k = none := by
  have hdef : rowCandidate rest w k =
      (matchTail ((rest.drop w).drop (k + 1))).map
        (fun f => (String.mk ((rest.drop w).take (k + 1)), f)) := rfl
  rw [hdef, matchTail_no_dollar]
  · rfl
  · exact fun hx => h (List.drop_subset _ _ (List.drop_subset _ _ hx))

theorem row_match_no_dollar (cs : List Char) (h : '$' ∉ cs) : row_match cs = none := by
  cases cs with
  | nil => rfl
  | cons c rest =>
      have hr : '$' ∉ rest := fun hx => h (List.mem_cons_of_mem c hx)
      have hdef : row_match (c :: rest) =
          (if (decide (c = '+') || decide (c = '-')) = true then
            ((List.range ((rest.takeWhile isSpaceCh).length + 1)).reverse).findSome?
              (fun w => (List.range (rest.length - w)).findSome? fun k =>
                rowCandidate rest w k)
          else none) := rfl
      rw [hdef]
      by_cases hc : (decide (c = '+') || decide (c = '-')) = true
      · rw [if_pos hc]
        apply List.findSome?_eq_none_iff.2
        intro w _
        apply List.findSome?_eq_none_iff.2
        intro k _
        exact rowCandidate_no_dollar rest w k hr
      · rw [if_neg hc]

/-- Counterexample to C6 as stated: the very same category line is
extracted with the `$` prefixes and not extracted without them — the
currency symbol is not optional. -/
theorem C6_counterexample :
    (parse_worker_sales_by_category ["+ Notary 1 1 $5.00 $5.00 $5.00"]).rows "Notary"
      = some (rowOfFields ⟨1, 1, "5.00", "5.00", "5.00"⟩) ∧
    (parse_worker_sales_by_category ["+ Notary 1 1 5.00 5.00 5.00"]).rows "Notary" = none :=
  ⟨rfl, rfl⟩

/-- C6 amended: The `$` prefix on the currency fields is
mandatory: a line containing no `$` at all never matches `row_re`.
On matching lines the captured currency text is converted after
stripping thousands separators (and the `$` is outside the capture). -/
theorem C6_dollar_required (cs : List Char) (h : '$' ∉ cs) :
    row_match cs = none ∧
    (parse_worker_sales_by_category
        ["+ Office Supplies 2 3 $1,234.56 $617.28 $411.52"]).rows "Office Supplies"
      = some (rowOfFields ⟨2, 3, "1,234.56", "617.28", "411.52"⟩) ∧
    money_to_float "1,234.56" = 123456 / 100 := by
  refine ⟨row_match_no_dollar cs h, rfl, ?_⟩
  have h2 : money_to_float "1,234.56" = (1234 : ℚ) + (56 : ℚ) / 10 ^ (2 : Nat) := rfl
  rw [h2]
  norm_num

/-- Witness for the amended C6 at a concrete `$`-less line. -/
theorem C6_dollar_required_witness :
    row_match "+ Notary 1 1 5.00 5.00 5.00".toList = none ∧
    (parse_worker_sales_by_category
        ["+ Office Supplies 2 3 $1,234.56 $617.28 $411.52"]).rows "Office Supplies"
      = some (rowOfFields ⟨2, 3, "1,234.56", "617.28", "411.52"⟩) ∧
    money_to_float "1,234.56" = 123456 / 100 :=
  C6_dollar_required "+ Notary 1 1 5.00 5.00 5.00".toList (by decide)

/-! ## Unparsable date tokens (C7) -/

theorem prorated_none_start (g : Option ℚ) (e : Option Date) (b : Bool) :
    prorated_goal_exact_calendar g none e b = none := by
  cases g <;> cases e <;> rfl

theorem prorated_none_end (g : Option ℚ) (s : Option Date) (b : Bool) :
    prorated_goal_exact_calendar g s none b = none := by
  cases g <;> cases s <;> rfl

theorem computeMetrics_prorated_none (glookup : String → Option (ℚ × Bool)) (idx : Nat)
    (p : ParsedReport) (h : p.start_date = none ∨ p.end_date = none) :
    (computeMetrics glookup idx p).prorated_goal = none := by
  simp only [computeMetrics]
  rcases h with h | h <;> rw [h]
  · exact prorated_none_start _ _ _
  · exact prorated_none_end _ _ _

/-- Counterexample to C7 as stated: a report whose second date token
fails to parse still retains a resolved `start_date` — "no resolved
dates" is false when only one token is unparsable. -/
theorem C7_counterexample :
    find_date_tokens ["Date Range:", "2/9/2026", "to", "2/31/2026"]
      = some ("2/9/2026", "2/31/2026") ∧
    parse_date_any "2/31/2026" = none ∧
    (parse_worker_sales_by_category ["Date Range:", "2/9/2026", "to", "2/31/2026"]).start_date
      = some ⟨2026, 2, 9⟩ :=
  ⟨rfl, rfl, rfl⟩

/-- C7 amended: When the Date Range marker and both tokens are
present but at least one token fails to parse as a valid calendar
date, the failed token's resolved date is absent (the other token's
resolved date may remain), the display string is the raw token text,
and proration is inapplicable (`prorated_goal` absent). -/
theorem C7_unparsable_date (lines : List String) (t1 t2 : String)
    (glookup : String → Option (ℚ × Bool)) (idx : Nat)
    (ht : find_date_tokens lines = some (t1, t2))
    (hf : parse_date_any t1 = none ∨ parse_date_any t2 = none) :
    ((parse_worker_sales_by_category lines).start_date = none ∨
      (parse_worker_sales_by_category lines).end_date = none) ∧
    (parse_worker_sales_by_category lines).date_range_str
      = some (strTrim t1 ++ " to " ++ strTrim t2) ∧
    (computeMetrics glookup idx (parse_worker_sales_by_category lines)).prorated_goal
      = none := by
  have hs : (parse_worker_sales_by_category lines).start_date
      = (find_date_tokens lines).bind (fun q => parse_date_any q.1) := rfl
  have he : (parse_worker_sales_by_category lines).end_date
      = (find_date_tokens lines).bind (fun q => parse_date_any q.2) := rfl
  have hone : (parse_worker_sales_by_category lines).start_date = none ∨
      (parse_worker_sales_by_category lines).end_date = none := by
    rcases hf with hf | hf
    · exact Or.inl (by rw [hs, ht]; simpa using hf)
    · exact Or.inr (by rw [he, ht]; simpa using hf)
  refine ⟨hone, ?_, computeMetrics_prorated_none glookup idx _ hone⟩
  have hd : (parse_worker_sales_by_category lines).date_range_str
      = (match (find_date_tokens lines).bind (fun q => parse_date_any q.1),
            (find_date_tokens lines).bind (fun q => parse_date_any q.2) with
        | some s, some e => some (fmtDate s ++ " to " ++ fmtDate e)
        | _, _ => (find_date_tokens lines).map
            (fun q => strTrim q.1 ++ " to " ++ strTrim q.2)) := rfl
  rw [hd, ht]
  rcases hf with hf | hf
  · rcases h2 : parse_date_any t2 with _ | d <;> simp [hf, h2]
  · rcases h1 : parse_date_any t1 with _ | d <;> simp [hf, h1]

/-- Witness for the amended C7 at a concrete report whose end token
`2/31/2026` is not a valid calendar date. -/
theorem C7_unparsable_date_witness :
    ((parse_worker_sales_by_category
        ["Date Range:", "2/9/2026", "to", "2/31/2026"]).start_date = none ∨
      (parse_worker_sales_by_category
        ["Date Range:", "2/9/2026", "to", "2/31/2026"]).end_date = none) ∧
    (parse_worker_sales_by_category
        ["Date Range:", "2/9/2026", "to", "2/31/2026"]).date_range_str
      = some (strTrim "2/9/2026" ++ " to " ++ strTrim "2/31/2026") ∧
    (computeMetrics (fun _ => none) 1 (parse_worker_sales_by_category
        ["Date Range:", "2/9/2026", "to", "2/31/2026"])).prorated_goal = none :=
  C7_unparsable_date ["Date Range:", "2/9/2026", "to", "2/31/2026"]
    "2/9/2026" "2/31/2026" (fun _ => none) 1 rfl (Or.inr rfl)

end FRS
